import Mathlib

/-!
Verification development for the Mini-SPSS survey service
(`src/services/sav_reader.py`).  The pandas/pyreadstat data model is
shallowly embedded: a dataframe is a list of rows over named columns,
cells are numeric codes, string residuals, or the missing marker (NaN),
and the two query operations `get_question_responses` and
`get_question_responses_with_filters` are translated line by line.
-/

/-- A cell value of the dataset: an SPSS numeric code, a string residual,
or the missing marker (pandas NaN). -/
inductive SAVValue where
  | num (q : ℚ)
  | text (s : String)
  | missing
deriving DecidableEq

/-- `isinstance(x, str)` on a cell. -/
def SAVValue.isString : SAVValue → Bool
  | .text _ => true
  | _ => false

/-- Whether the cell is the missing marker (NaN). -/
def SAVValue.isMissing : SAVValue → Bool
  | .missing => true
  | _ => false

/-- `str(valor)`, used as the fallback label. -/
def savToString : SAVValue → String
  | .num q => toString q
  | .text s => s
  | .missing => "nan"

/-- A dataframe: named columns and a list of rows (each row lists its cells
in column order). -/
structure Table where
  cols : List String
  rows : List (List SAVValue)
deriving DecidableEq

/-- The slice of pyreadstat metadata the service uses: per-column question
labels and per-column value-label dictionaries. -/
structure Metadata where
  column_names_to_labels : List (String × String)
  variable_value_labels : List (String × List (SAVValue × String))
deriving DecidableEq

/-- The cell of a row at a column index. -/
def cellAt (row : List SAVValue) (i : ℕ) : SAVValue := row.getD i .missing

/-- Position of a column name in the header. -/
def Table.colIdx (t : Table) (c : String) : Option ℕ := t.cols.findIdx? (· == c)

/-- `df[c]` as the list of that column's cells (empty if the column is absent). -/
def Table.getCol (t : Table) (c : String) : List SAVValue :=
  match t.colIdx c with
  | some i => t.rows.map (fun r => cellAt r i)
  | none => []

/-- `Series.dropna()`: discard missing cells. -/
def dropna (vs : List SAVValue) : List SAVValue := vs.filter (fun v => !v.isMissing)

/-- The exception classes of sav_reader.py: the base `SAVReaderError` (raised
directly for both load failures) and its two subclasses. -/
inductive SAVErr where
  | savReaderError (msg : String)
  | questionNotFound (msg : String)
  | categoryNotFound (msg : String)
deriving DecidableEq

/-- The exception class (kind) of an error, forgetting the message. -/
inductive ErrKind where
  | savReaderError
  | questionNotFound
  | categoryNotFound
deriving DecidableEq

/-- Kind of a raised error. -/
def SAVErr.kind : SAVErr → ErrKind
  | .savReaderError _ => .savReaderError
  | .questionNotFound _ => .questionNotFound
  | .categoryNotFound _ => .categoryNotFound

/-- Floor of a rational, computed from its reduced fraction (kept
executable so concrete distributions evaluate inside proofs). -/
def ratFloor (x : ℚ) : ℤ := x.num / (x.den : ℤ)

/-- Fractional part with respect to `ratFloor`. -/
def ratFract (x : ℚ) : ℚ := x - (ratFloor x : ℚ)

/-- Round to the nearest integer with ties to even (Python's `round` on a
value that is exactly representable). -/
def roundHalfEven (x : ℚ) : ℤ :=
  if ratFract x < 1/2 then ratFloor x
  else if 1/2 < ratFract x then ratFloor x + 1
  else if ratFloor x % 2 = 0 then ratFloor x else ratFloor x + 1

/-- `round(x, 2)`. -/
def round2 (x : ℚ) : ℚ := (roundHalfEven (x * 100) : ℚ) / 100

/-- One entry of the `respuestas` list: raw value, display label, metric
(count or rounded percentage, depending on the requested tipo). -/
structure Respuesta where
  valor : SAVValue
  etiqueta : String
  metric : ℚ
deriving DecidableEq

/-- The sort key`(isinstance(valor, str), valor)` as a Boolean order:
numerics before strings, ascending within each group.  (The missing marker
is ordered last; it never occurs after `dropna`.) -/
def valueLE : SAVValue → SAVValue → Bool
  | .num a, .num b => a ≤ b
  | .num _, _ => true
  | .text _, .num _ => false
  | .text a, .text b => a ≤ b
  | .text _, _ => true
  | .missing, .missing => true
  | .missing, _ => false

/-- The entry order used by `respuestas.sort`. -/
def respRel (a b : Respuesta) : Prop := valueLE a.valor b.valor = true

instance : DecidableRel respRel := fun _ _ => inferInstanceAs (Decidable (_ = true))

/-- The response-list construction shared verbatim by the two query
operations: group the non-missing cells by distinct value, attach labels,
compute the metric, and sort by `(isinstance(valor, str), valor)`.
(`value_counts` enumerates each distinct value once; its pre-sort order is
irrelevant because the final sort is by a key that is injective on distinct
values.) -/
def buildRespuestas (clean : List SAVValue) (qlabels : List (SAVValue × String))
    (tipo : String) : List Respuesta :=
  let total := clean.length
  let items := clean.dedup.map (fun v =>
    let cantidad := clean.count v
    let etiqueta := (qlabels.lookup v).getD (savToString v)
    let metric : ℚ :=
      if tipo = "porcentaje" then
        (if 0 < total then round2 (((cantidad : ℚ) / (total : ℚ)) * 100) else 0)
      else (cantidad : ℚ)
    ⟨v, etiqueta, metric⟩)
  List.insertionSort respRel items

/-- Result shape of `get_question_responses`. -/
structure QuestionResponse where
  identificador : String
  pregunta : String
  tipo_respuesta : String
  respuestas : List Respuesta
  total_respuestas : ℕ
deriving DecidableEq

/-- `SAVReader.get_question_responses` (the Python message wraps the id in
quote characters; they are omitted here). -/
def get_question_responses (df : Table) (meta : Metadata) (question_id : String)
    (tipo : String) : Except SAVErr QuestionResponse :=
  if question_id ∈ df.cols then
    let pregunta_texto := (meta.column_names_to_labels.lookup question_id).getD question_id
    let qlabels := (meta.variable_value_labels.lookup question_id).getD []
    let clean := dropna (df.getCol question_id)
    .ok { identificador := question_id
          pregunta := pregunta_texto
          tipo_respuesta := tipo
          respuestas := buildRespuestas clean qlabels tipo
          total_respuestas := clean.length }
  else
    .error (.questionNotFound ("Pregunta " ++ question_id ++ " no encontrada"))

/-- The `edad` range: a dict with optional min and max bounds. -/
structure EdadFilter where
  min : Option ℚ
  max : Option ℚ
deriving DecidableEq

/-- A value recorded in `filtros_aplicados`: the scalar of a simple filter
or the (min?, max?) range of the edad filter. -/
inductive FilterValue where
  | scalar (v : ℚ)
  | rango (min max : Option ℚ)
deriving DecidableEq

/-- The `filtros_aplicados` dict, as an insertion-ordered association list. -/
abbrev Aplicados := List (String × FilterValue)

/-- The `filtros` argument: each recognized key either absent/None (`none`)
or carrying a value. -/
structure Filtros where
  calidad_vida : Option ℚ := none
  municipio : Option ℚ := none
  sexo : Option ℚ := none
  escolaridad : Option ℚ := none
  nse : Option ℚ := none
  edad : Option EdadFilter := none
deriving DecidableEq

/-- pandas `df[col] == value` on one cell: NaN and strings never equal a
numeric scalar. -/
def cellEqNum (cell : SAVValue) (v : ℚ) : Bool :=
  match cell with
  | .num q => q = v
  | _ => false

/-- pandas `df[col] >= v` on one cell (false on NaN). -/
def cellGeNum (cell : SAVValue) (v : ℚ) : Bool :=
  match cell with
  | .num q => v ≤ q
  | _ => false

/-- pandas `df[col] <= v` on one cell (false on NaN). -/
def cellLeNum (cell : SAVValue) (v : ℚ) : Bool :=
  match cell with
  | .num q => q ≤ v
  | _ => false

/-- `SAVReader._apply_simple_filter`: equality filter on a column, recorded
in `filtros_aplicados` only when the column exists. -/
def apply_simple_filter (t : Table) (column : String) (value : ℚ)
    (filtros_aplicados : Aplicados) (filter_key : String) : Table × Aplicados :=
  match t.colIdx column with
  | some i =>
      ({ t with rows := t.rows.filter (fun r => cellEqNum (cellAt r i) value) },
       filtros_aplicados ++ [(filter_key, .scalar value)])
  | none => (t, filtros_aplicados)

/-- The edad (Q_75) range-filter block of `get_question_responses_with_filters`:
skipped entirely when Q_75 is absent; otherwise applies whichever bounds are
given (possibly neither) and records the range. -/
def apply_edad_filter (t : Table) (ef : EdadFilter) (filtros_aplicados : Aplicados) :
    Table × Aplicados :=
  match t.colIdx "Q_75" with
  | none => (t, filtros_aplicados)
  | some i =>
      let t2 :=
        match ef.min, ef.max with
        | some mn, some mx =>
            { t with rows := t.rows.filter (fun r =>
                cellGeNum (cellAt r i) mn && cellLeNum (cellAt r i) mx) }
        | some mn, none =>
            { t with rows := t.rows.filter (fun r => cellGeNum (cellAt r i) mn) }
        | none, some mx =>
            { t with rows := t.rows.filter (fun r => cellLeNum (cellAt r i) mx) }
        | none, none => t
      (t2, filtros_aplicados ++ [("edad", .rango ef.min ef.max)])

/-- One iteration of the simple-filters loop: keys whose value is None (or
absent) are skipped. -/
def simpleStep (fld : Option ℚ) (column filter_key : String)
    (s : Table × Aplicados) : Table × Aplicados :=
  match fld with
  | some v => apply_simple_filter s.1 column v s.2 filter_key
  | none => s

/-- The edad step: skipped when the key is absent or None. -/
def edadStep (fld : Option EdadFilter) (s : Table × Aplicados) : Table × Aplicados :=
  match fld with
  | some ef => apply_edad_filter s.1 ef s.2
  | none => s

/-- The filter-application block of `get_question_responses_with_filters`,
in source order: calidad_vida, municipio, sexo, escolaridad, nse, then edad. -/
def applyFiltros (df : Table) (f : Filtros) : Table × Aplicados :=
  edadStep f.edad
    (simpleStep f.nse "NSE2024_C" "nse"
      (simpleStep f.escolaridad "ESC" "escolaridad"
        (simpleStep f.sexo "SEXO" "sexo"
          (simpleStep f.municipio "Q_94" "municipio"
            (simpleStep f.calidad_vida "CALIDAD_VIDA" "calidad_vida" (df, []))))))

/-- `filtros=None` (and the falsy empty dict) skip the whole filter block. -/
def applyFiltrosOpt (df : Table) (filtros : Option Filtros) : Table × Aplicados :=
  match filtros with
  | some f => applyFiltros df f
  | none => (df, [])

/-- Result shape of `get_question_responses_with_filters`. -/
structure QuestionResponseF where
  identificador : String
  pregunta : String
  tipo_respuesta : String
  respuestas : List Respuesta
  total_respuestas : ℕ
  filtros_aplicados : Aplicados
deriving DecidableEq

/-- `SAVReader.get_question_responses_with_filters`. -/
def get_question_responses_with_filters (df : Table) (meta : Metadata)
    (question_id : String) (tipo : String) (filtros : Option Filtros) :
    Except SAVErr QuestionResponseF :=
  if question_id ∈ df.cols then
    let fa := applyFiltrosOpt df filtros
    let pregunta_texto := (meta.column_names_to_labels.lookup question_id).getD question_id
    let qlabels := (meta.variable_value_labels.lookup question_id).getD []
    let clean := dropna (fa.1.getCol question_id)
    .ok { identificador := question_id
          pregunta := pregunta_texto
          tipo_respuesta := tipo
          respuestas := buildRespuestas clean qlabels tipo
          total_respuestas := clean.length
          filtros_aplicados := fa.2 }
  else
    .error (.questionNotFound ("Pregunta " ++ question_id ++ " no encontrada"))

/-- The backing .sav artifact as the loader sees it: missing on disk,
present but unparsable, or parsable into a dataframe and metadata. -/
inductive Artifact where
  | absent
  | corrupt (cause : String)
  | good (df : Table) (meta : Metadata)

/-- The mutable state of a `SAVReader` instance (the `_cached_preguntas`
field plays no role in the claims and is omitted). -/
structure ReaderState where
  file_path : String
  cached_data : Option (Table × Metadata)
deriving DecidableEq

/-- `SAVReader.load_data`.  Returns the result, the successor state, and the
number of artifact reads (`pyreadstat.read_sav` attempts) this call made:
a cache hit and the missing-file branch read nothing, the other branches
read once.  (The Python messages wrap values in quote characters omitted
here.) -/
def load_data (art : Artifact) (s : ReaderState) :
    Except SAVErr (Table × Metadata) × ReaderState × ℕ :=
  match s.cached_data with
  | some d => (.ok d, s, 0)
  | none =>
    match art with
    | .absent =>
        (.error (.savReaderError ("Data file not found: " ++ s.file_path)), s, 0)
    | .corrupt cause =>
        (.error (.savReaderError ("Error reading data file: " ++ cause)), s, 1)
    | .good df meta =>
        (.ok (df, meta), { s with cached_data := some (df, meta) }, 1)

/-- `SAVReader.clear_cache`. -/
def clear_cache (s : ReaderState) : ReaderState :=
  { s with cached_data := none }

/-- A trace of N successive `load_data` calls against a fixed artifact:
the list of results, the final state, and the total number of artifact reads. -/
def load_data_trace (art : Artifact) (s : ReaderState) :
    ℕ → List (Except SAVErr (Table × Metadata)) × ReaderState × ℕ
  | 0 => ([], s, 0)
  | n + 1 =>
    let c := load_data art s
    let rest := load_data_trace art c.2.1 n
    (c.1 :: rest.1, rest.2.1, c.2.2 + rest.2.2)

/-! ### The response-list construction -/

/-- The entry built for one distinct value (the body of the value_counts loop). -/
def respuestaOf (clean : List SAVValue) (qlabels : List (SAVValue × String))
    (tipo : String) (v : SAVValue) : Respuesta :=
  { valor := v
    etiqueta := (qlabels.lookup v).getD (savToString v)
    metric :=
      if tipo = "porcentaje" then
        (if 0 < clean.length then
          round2 (((clean.count v : ℚ) / (clean.length : ℚ)) * 100)
        else 0)
      else (clean.count v : ℚ) }

/-! ### Row filtering as a single operation, and commutation -/

/-- The common shape of one boolean-indexing step `df[pred(df[c])]`:
filter the rows by a predicate on the cell of column `c` (identity when the
column is absent). -/
def tableFilter (t : Table) (c : String) (p : SAVValue → Bool) : Table :=
  match t.colIdx c with
  | some i => { t with rows := t.rows.filter (fun r => p (cellAt r i)) }
  | none => t

/-- One filter criterion: the scalar equality filters, or the edad range. -/
inductive Criterion where
  | simple (column : String) (value : ℚ)
  | edadRange (ef : EdadFilter)

/-- The row restriction a single criterion performs, taken from the source
functions (the `filtros_aplicados` bookkeeping is irrelevant to the rows). -/
def applyCriterion (c : Criterion) (t : Table) : Table :=
  match c with
  | .simple col v => (apply_simple_filter t col v [] "").1
  | .edadRange ef => (apply_edad_filter t ef []).1

/-- The column a criterion is bound to. -/
def criterionColumn : Criterion → String
  | .simple col _ => col
  | .edadRange _ => "Q_75"

/-- The cell predicate a criterion applies. -/
def criterionPred : Criterion → SAVValue → Bool
  | .simple _ v => fun cell => cellEqNum cell v
  | .edadRange ef => fun cell =>
      match ef.min, ef.max with
      | some mn, some mx => cellGeNum cell mn && cellLeNum cell mx
      | some mn, none => cellGeNum cell mn
      | none, some mx => cellLeNum cell mx
      | none, none => true

/-! ### Recognized filter keys and their bound columns -/

/-- The fixed enumerated set of recognized filter keys. -/
inductive FilterKey where
  | calidad_vida
  | municipio
  | sexo
  | escolaridad
  | nse
  | edad
deriving DecidableEq

/-- The dict key under which a filter is recorded in `filtros_aplicados`. -/
def keyName : FilterKey → String
  | .calidad_vida => "calidad_vida"
  | .municipio => "municipio"
  | .sexo => "sexo"
  | .escolaridad => "escolaridad"
  | .nse => "nse"
  | .edad => "edad"

/-- The table column each recognized key is bound to (the `simple_filters`
mapping, plus Q_75 for edad). -/
def boundColumn : FilterKey → String
  | .calidad_vida => "CALIDAD_VIDA"
  | .municipio => "Q_94"
  | .sexo => "SEXO"
  | .escolaridad => "ESC"
  | .nse => "NSE2024_C"
  | .edad => "Q_75"

/-- Remove one key from a filter spec. -/
def eraseKey : FilterKey → Filtros → Filtros
  | .calidad_vida, f => { f with calidad_vida := none }
  | .municipio, f => { f with municipio := none }
  | .sexo, f => { f with sexo := none }
  | .escolaridad, f => { f with escolaridad := none }
  | .nse, f => { f with nse := none }
  | .edad, f => { f with edad := none }

/-! ### Specification predicates used by the claim theorems -/

/-- The respuestas/total pair is a correct count distribution over the
non-missing cells of the target column of `filtered`: one entry per distinct
non-missing value, each metric the occurrence count, total the number of
non-missing cells, counts summing to the total, and the total bounded by
the row count. -/
def CountDistributionOK (filtered : Table) (qid : String)
    (respuestas : List Respuesta) (total : ℕ) : Prop :=
  (respuestas.map Respuesta.valor).Nodup
  ∧ (∀ v, v ∈ respuestas.map Respuesta.valor ↔ v ∈ dropna (filtered.getCol qid))
  ∧ (∀ v ∈ respuestas.map Respuesta.valor, v.isMissing = false)
  ∧ (∀ e ∈ respuestas, e.metric = ((dropna (filtered.getCol qid)).count e.valor : ℚ))
  ∧ total = (dropna (filtered.getCol qid)).length
  ∧ (respuestas.map Respuesta.metric).sum = (total : ℚ)
  ∧ 0 ≤ (total : ℤ)
  ∧ total ≤ filtered.rows.length

/-- The respuestas list is a correct percentage distribution over the
non-missing cells of the target column of `filtered`: each metric is the
count/total ratio as a percentage rounded to two decimals, an empty column
yields no entries, and the rounded metrics sum to 100 up to one half of a
hundredth per entry. -/
def PercentageDistributionOK (filtered : Table) (qid : String)
    (respuestas : List Respuesta) : Prop :=
  (∀ e ∈ respuestas,
      e.metric = round2 ((((dropna (filtered.getCol qid)).count e.valor : ℚ)
        / ((dropna (filtered.getCol qid)).length : ℚ)) * 100))
  ∧ ((dropna (filtered.getCol qid)).length = 0 → respuestas = [])
  ∧ (0 < (dropna (filtered.getCol qid)).length →
      |(respuestas.map Respuesta.metric).sum - 100| ≤ (respuestas.length : ℚ) / 200)

/-- A 32-value column in which every value occurs exactly once. -/
def ctrTable : Table :=
  { cols := ["Q_1"], rows := (List.range 32).map (fun i => [SAVValue.num i]) }

/-- Metadata with no labels at all. -/
def emptyMeta : Metadata :=
  { column_names_to_labels := [], variable_value_labels := [] }

/-- The entries are sorted by the key (is-string, value): numerics strictly
ascending first, then strings strictly ascending. -/
def SortedByValueKey (respuestas : List Respuesta) : Prop :=
  respuestas.Pairwise (fun a b => valueLE a.valor b.valor = true ∧ a.valor ≠ b.valor)

/-- Drop the filtros_aplicados field of a filtered query result. -/
def forgetFiltros (rf : QuestionResponseF) : QuestionResponse :=
  { identificador := rf.identificador
    pregunta := rf.pregunta
    tipo_respuesta := rf.tipo_respuesta
    respuestas := rf.respuestas
    total_respuestas := rf.total_respuestas }

/-- Kind of the error in a failed load result. -/
def errKindOf : Except SAVErr (Table × Metadata) → Option ErrKind
  | .error e => some e.kind
  | .ok _ => none

/-! ### Concrete example data (the SEXO scenario of the design notes) -/

/-- A table with one labeled column SEXO and values [1, 1, 2, missing, 2]. -/
def exTable : Table :=
  { cols := ["SEXO"]
    rows := [[.num 1], [.num 1], [.num 2], [.missing], [.num 2]] }

/-- Labels for the SEXO column. -/
def exMeta : Metadata :=
  { column_names_to_labels := [("SEXO", "Sexo del encuestado")]
    variable_value_labels := [("SEXO", [(.num 1, "Hombre"), (.num 2, "Mujer")])] }

/-- The SEXO table extended with an age column Q_75. -/
def exTable2 : Table :=
  { cols := ["SEXO", "Q_75"]
    rows := [[.num 1, .num 25], [.num 1, .num 30], [.num 2, .num 40],
             [.missing, .num 50], [.num 2, .missing]] }

/-- The count-mode result on the SEXO example. -/
def exR : QuestionResponse :=
  { identificador := "SEXO"
    pregunta := "Sexo del encuestado"
    tipo_respuesta := "cantidad"
    respuestas := [⟨.num 1, "Hombre", 2⟩, ⟨.num 2, "Mujer", 2⟩]
    total_respuestas := 4 }

/-- The count-mode filtered-path result on the SEXO example (no filters). -/
def exRF : QuestionResponseF :=
  { identificador := "SEXO"
    pregunta := "Sexo del encuestado"
    tipo_respuesta := "cantidad"
    respuestas := [⟨.num 1, "Hombre", 2⟩, ⟨.num 2, "Mujer", 2⟩]
    total_respuestas := 4
    filtros_aplicados := [] }

/-- The percentage-mode result on the SEXO example. -/
def exRP : QuestionResponse :=
  { identificador := "SEXO"
    pregunta := "Sexo del encuestado"
    tipo_respuesta := "porcentaje"
    respuestas := [⟨.num 1, "Hombre", 50⟩, ⟨.num 2, "Mujer", 50⟩]
    total_respuestas := 4 }

/-- The percentage-mode filtered-path result on the SEXO example. -/
def exRPF : QuestionResponseF :=
  { identificador := "SEXO"
    pregunta := "Sexo del encuestado"
    tipo_respuesta := "porcentaje"
    respuestas := [⟨.num 1, "Hombre", 50⟩, ⟨.num 2, "Mujer", 50⟩]
    total_respuestas := 4
    filtros_aplicados := [] }

instance {ε α : Type} [DecidableEq ε] [DecidableEq α] :
    DecidableEq (Except ε α) := fun a b =>
  match a, b with
  | .ok x, .ok y => decidable_of_iff (x = y) (by simp)
  | .error e, .error f => decidable_of_iff (e = f) (by simp)
  | .ok _, .error _ => isFalse (by simp)
  | .error _, .ok _ => isFalse (by simp)

/-! ### Basic lemmas about columns and the filter steps -/

lemma colIdx_eq_none_iff (t : Table) (c : String) : t.colIdx c = none ↔ c ∉ t.cols := by
  unfold Table.colIdx
  rw [List.findIdx?_eq_none_iff]
  constructor
  · intro h hc
    have hx := h c hc
    simp at hx
  · intro h x hx
    simp only [beq_eq_false_iff_ne]
    intro e
    exact h (e ▸ hx)

lemma colIdx_isSome_of_mem {t : Table} {c : String} (h : c ∈ t.cols) :
    ∃ i, t.colIdx c = some i := by
  cases hi : t.colIdx c with
  | some i => exact ⟨i, rfl⟩
  | none => exact absurd h ((colIdx_eq_none_iff t c).1 hi)

lemma mk_rows_colIdx (t : Table) (rs : List (List SAVValue)) (c : String) :
    (Table.mk t.cols rs).colIdx c = t.colIdx c := rfl

lemma getCol_length_le (t : Table) (c : String) : (t.getCol c).length ≤ t.rows.length := by
  unfold Table.getCol
  cases hi : t.colIdx c
  · simp
  · simp

lemma dropna_length_le (vs : List SAVValue) : (dropna vs).length ≤ vs.length :=
  List.length_filter_le _ _

lemma mem_dropna {vs : List SAVValue} {v : SAVValue} :
    v ∈ dropna vs ↔ v ∈ vs ∧ v.isMissing = false := by
  unfold dropna
  simp [List.mem_filter]

lemma apply_simple_filter_fst_cols (t : Table) (c : String) (v : ℚ) (a : Aplicados)
    (k : String) : (apply_simple_filter t c v a k).1.cols = t.cols := by
  unfold apply_simple_filter
  cases hi : t.colIdx c <;> simp

lemma apply_edad_filter_fst_cols (t : Table) (ef : EdadFilter) (a : Aplicados) :
    (apply_edad_filter t ef a).1.cols = t.cols := by
  unfold apply_edad_filter
  cases hi : t.colIdx "Q_75"
  · rfl
  · cases hm : ef.min <;> cases hx : ef.max <;> simp

lemma simpleStep_fst_cols (fld : Option ℚ) (c k : String) (s : Table × Aplicados) :
    (simpleStep fld c k s).1.cols = s.1.cols := by
  cases fld <;> simp [simpleStep, apply_simple_filter_fst_cols]

lemma edadStep_fst_cols (fld : Option EdadFilter) (s : Table × Aplicados) :
    (edadStep fld s).1.cols = s.1.cols := by
  cases fld <;> simp [edadStep, apply_edad_filter_fst_cols]

lemma applyFiltros_fst_cols (df : Table) (f : Filtros) :
    (applyFiltros df f).1.cols = df.cols := by
  unfold applyFiltros
  rw [edadStep_fst_cols, simpleStep_fst_cols, simpleStep_fst_cols, simpleStep_fst_cols,
    simpleStep_fst_cols, simpleStep_fst_cols]

lemma applyFiltrosOpt_fst_cols (df : Table) (fo : Option Filtros) :
    (applyFiltrosOpt df fo).1.cols = df.cols := by
  cases fo <;> simp [applyFiltrosOpt, applyFiltros_fst_cols]

lemma simpleStep_skip (fld : Option ℚ) (c k : String) (s : Table × Aplicados)
    (h : c ∉ s.1.cols) : simpleStep fld c k s = s := by
  cases fld with
  | none => rfl
  | some v =>
    show apply_simple_filter s.1 c v s.2 k = s
    unfold apply_simple_filter
    rw [(colIdx_eq_none_iff _ _).2 h]

lemma edadStep_skip (fld : Option EdadFilter) (s : Table × Aplicados)
    (h : "Q_75" ∉ s.1.cols) : edadStep fld s = s := by
  cases fld with
  | none => rfl
  | some ef =>
    show apply_edad_filter s.1 ef s.2 = s
    unfold apply_edad_filter
    rw [(colIdx_eq_none_iff _ _).2 h]

lemma simpleStep_keys {x : String} {fld : Option ℚ} {c : String} {k : String}
    {s : Table × Aplicados}
    (h : x ∉ s.2.map Prod.fst) (hx : x ≠ k) :
    x ∉ (simpleStep fld c k s).2.map Prod.fst := by
  cases fld with
  | none => exact h
  | some v =>
    show x ∉ (apply_simple_filter s.1 c v s.2 k).2.map Prod.fst
    unfold apply_simple_filter
    cases hi : s.1.colIdx c
    · exact h
    · simp only [List.map_append, List.mem_append]
      rintro (hl | hr)
      · exact h hl
      · simp at hr
        exact hx hr

lemma edadStep_keys {x : String} {fld : Option EdadFilter} {s : Table × Aplicados}
    (h : x ∉ s.2.map Prod.fst) (hx : x ≠ "edad") :
    x ∉ (edadStep fld s).2.map Prod.fst := by
  cases fld with
  | none => exact h
  | some ef =>
    show x ∉ (apply_edad_filter s.1 ef s.2).2.map Prod.fst
    unfold apply_edad_filter
    cases hi : s.1.colIdx "Q_75"
    · exact h
    · simp only [List.map_append, List.mem_append]
      rintro (hl | hr)
      · exact h hl
      · simp at hr
        exact hx hr

/-! ### The entry order is a total preorder -/

lemma valueLE_total (a b : SAVValue) : valueLE a b = true ∨ valueLE b a = true := by
  cases a <;> cases b <;> simp [valueLE] <;> exact le_total _ _

lemma valueLE_trans {a b c : SAVValue} (hab : valueLE a b = true)
    (hbc : valueLE b c = true) : valueLE a c = true := by
  cases a <;> cases b <;> cases c <;> simp [valueLE] at * <;>
    exact le_trans hab hbc

instance : IsTotal Respuesta respRel :=
  ⟨fun a b => valueLE_total a.valor b.valor⟩

instance : IsTrans Respuesta respRel :=
  ⟨fun _ _ _ hab hbc => valueLE_trans hab hbc⟩

lemma buildRespuestas_eq (clean : List SAVValue) (qlabels : List (SAVValue × String))
    (tipo : String) :
    buildRespuestas clean qlabels tipo =
      List.insertionSort respRel (clean.dedup.map (respuestaOf clean qlabels tipo)) := rfl

lemma buildRespuestas_perm (clean : List SAVValue) (qlabels : List (SAVValue × String))
    (tipo : String) :
    (buildRespuestas clean qlabels tipo).Perm
      (clean.dedup.map (respuestaOf clean qlabels tipo)) := by
  rw [buildRespuestas_eq]
  exact List.perm_insertionSort _ _

lemma respuestaOf_valor (clean : List SAVValue) (qlabels : List (SAVValue × String))
    (tipo : String) (v : SAVValue) : (respuestaOf clean qlabels tipo v).valor = v := rfl

lemma buildRespuestas_map_valor_perm (clean : List SAVValue)
    (qlabels : List (SAVValue × String)) (tipo : String) :
    ((buildRespuestas clean qlabels tipo).map Respuesta.valor).Perm clean.dedup := by
  refine ((buildRespuestas_perm clean qlabels tipo).map _).trans ?_
  rw [List.map_map]
  have : (Respuesta.valor ∘ respuestaOf clean qlabels tipo) = id := by
    funext v
    rfl
  rw [this, List.map_id]

lemma buildRespuestas_valor_nodup (clean : List SAVValue)
    (qlabels : List (SAVValue × String)) (tipo : String) :
    ((buildRespuestas clean qlabels tipo).map Respuesta.valor).Nodup :=
  ((buildRespuestas_map_valor_perm clean qlabels tipo).nodup_iff).2 (List.nodup_dedup clean)

lemma buildRespuestas_mem_valor (clean : List SAVValue)
    (qlabels : List (SAVValue × String)) (tipo : String) (v : SAVValue) :
    v ∈ (buildRespuestas clean qlabels tipo).map Respuesta.valor ↔ v ∈ clean := by
  rw [(buildRespuestas_map_valor_perm clean qlabels tipo).mem_iff]
  exact List.mem_dedup

lemma buildRespuestas_mem (clean : List SAVValue) (qlabels : List (SAVValue × String))
    (tipo : String) (e : Respuesta) :
    e ∈ buildRespuestas clean qlabels tipo ↔
      ∃ v ∈ clean.dedup, respuestaOf clean qlabels tipo v = e := by
  rw [(buildRespuestas_perm clean qlabels tipo).mem_iff]
  exact List.mem_map

lemma buildRespuestas_metric_count (clean : List SAVValue)
    (qlabels : List (SAVValue × String)) (e : Respuesta)
    (he : e ∈ buildRespuestas clean qlabels "cantidad") :
    e.metric = (clean.count e.valor : ℚ) := by
  obtain ⟨v, _, hv⟩ := (buildRespuestas_mem clean qlabels "cantidad" e).1 he
  subst hv
  simp [respuestaOf]

lemma buildRespuestas_count_sum (clean : List SAVValue)
    (qlabels : List (SAVValue × String)) :
    ((buildRespuestas clean qlabels "cantidad").map Respuesta.metric).sum
      = (clean.length : ℚ) := by
  rw [((buildRespuestas_perm clean qlabels "cantidad").map Respuesta.metric).sum_eq]
  rw [List.map_map]
  have h1 : (Respuesta.metric ∘ respuestaOf clean qlabels "cantidad")
      = fun v => ((clean.count v : ℕ) : ℚ) := by
    funext v
    simp [respuestaOf]
  rw [h1]
  have h2 : (clean.dedup.map fun v => ((clean.count v : ℕ) : ℚ))
      = (clean.dedup.map fun v => clean.count v).map (Nat.cast) := by
    rw [List.map_map]
    rfl
  rw [h2, ← Nat.cast_list_sum, List.sum_map_count_dedup_eq_length]

/-! ### Rounding and percentage-sum lemmas -/

lemma ratFloor_eq (x : ℚ) : ratFloor x = ⌊x⌋ := Rat.floor_def.symm

lemma ratFract_eq (x : ℚ) : ratFract x = Int.fract x := by
  unfold ratFract
  rw [ratFloor_eq]
  rfl

lemma roundHalfEven_close (x : ℚ) : |((roundHalfEven x : ℤ) : ℚ) - x| ≤ 1/2 := by
  have h0 : (0:ℚ) ≤ Int.fract x := Int.fract_nonneg x
  have h1 : Int.fract x < 1 := Int.fract_lt_one x
  have hfr : Int.fract x = x - (⌊x⌋ : ℚ) := rfl
  unfold roundHalfEven
  rw [ratFract_eq, ratFloor_eq]
  split
  · rename_i h
    rw [abs_le]
    constructor <;> linarith
  · rename_i h
    split
    · rename_i h2
      rw [abs_le]
      push_cast
      constructor <;> linarith
    · rename_i h2
      have he : Int.fract x = 1/2 := le_antisymm (not_lt.1 h2) (not_lt.1 h)
      split
      · rw [abs_le]
        constructor <;> linarith
      · rw [abs_le]
        push_cast
        constructor <;> linarith

lemma round2_close (x : ℚ) : |round2 x - x| ≤ 1/200 := by
  unfold round2
  have h := roundHalfEven_close (x * 100)
  rw [abs_le] at h ⊢
  obtain ⟨ha, hb⟩ := h
  constructor <;> linarith

lemma list_sum_abs_le {α : Type} (l : List α) (f g : α → ℚ) (c : ℚ)
    (h : ∀ a ∈ l, |f a - g a| ≤ c) :
    |(l.map f).sum - (l.map g).sum| ≤ (l.length : ℚ) * c := by
  induction l with
  | nil => simp
  | cons a l ih =>
    simp only [List.map_cons, List.sum_cons, List.length_cons]
    have h1 := h a (List.mem_cons_self a l)
    have h2 := ih (fun b hb => h b (List.mem_cons_of_mem a hb))
    calc |f a + (l.map f).sum - (g a + (l.map g).sum)|
        = |(f a - g a) + ((l.map f).sum - (l.map g).sum)| := by ring_nf
      _ ≤ |f a - g a| + |(l.map f).sum - (l.map g).sum| := abs_add _ _
      _ ≤ c + (l.length : ℚ) * c := add_le_add h1 h2
      _ = ((l.length + 1 : ℕ) : ℚ) * c := by push_cast; ring

lemma sum_count_cast (clean : List SAVValue) :
    (clean.dedup.map fun v => ((clean.count v : ℕ) : ℚ)).sum = (clean.length : ℚ) := by
  have h2 : (clean.dedup.map fun v => ((clean.count v : ℕ) : ℚ))
      = (clean.dedup.map fun v => clean.count v).map Nat.cast := by
    rw [List.map_map]
    rfl
  rw [h2, ← Nat.cast_list_sum, List.sum_map_count_dedup_eq_length]

lemma sum_pct_exact (clean : List SAVValue) (hpos : 0 < clean.length) :
    (clean.dedup.map fun v => ((clean.count v : ℚ) / (clean.length : ℚ)) * 100).sum
      = 100 := by
  have hT : ((clean.length : ℕ) : ℚ) ≠ 0 := by
    exact_mod_cast Nat.pos_iff_ne_zero.1 hpos
  have he : (fun v => ((clean.count v : ℚ) / (clean.length : ℚ)) * 100)
      = fun v => ((clean.count v : ℕ) : ℚ) * (100 / (clean.length : ℚ)) := by
    funext v
    field_simp
  rw [he, List.sum_map_mul_right, sum_count_cast]
  field_simp

lemma buildRespuestas_metric_pct (clean : List SAVValue)
    (qlabels : List (SAVValue × String)) (e : Respuesta)
    (he : e ∈ buildRespuestas clean qlabels "porcentaje") (hpos : 0 < clean.length) :
    e.metric = round2 (((clean.count e.valor : ℚ) / (clean.length : ℚ)) * 100) := by
  obtain ⟨v, _, hv⟩ := (buildRespuestas_mem clean qlabels "porcentaje" e).1 he
  subst hv
  simp [respuestaOf, hpos]

lemma buildRespuestas_length (clean : List SAVValue)
    (qlabels : List (SAVValue × String)) (tipo : String) :
    (buildRespuestas clean qlabels tipo).length = clean.dedup.length := by
  rw [(buildRespuestas_perm clean qlabels tipo).length_eq, List.length_map]

lemma buildRespuestas_pct_sum_close (clean : List SAVValue)
    (qlabels : List (SAVValue × String)) (hpos : 0 < clean.length) :
    |((buildRespuestas clean qlabels "porcentaje").map Respuesta.metric).sum - 100|
      ≤ ((buildRespuestas clean qlabels "porcentaje").length : ℚ) / 200 := by
  rw [((buildRespuestas_perm clean qlabels "porcentaje").map Respuesta.metric).sum_eq,
    List.map_map, buildRespuestas_length]
  have hm : (Respuesta.metric ∘ respuestaOf clean qlabels "porcentaje")
      = fun v => round2 (((clean.count v : ℚ) / (clean.length : ℚ)) * 100) := by
    funext v
    simp [respuestaOf, hpos]
  rw [hm]
  have hb := list_sum_abs_le clean.dedup
      (fun v => round2 (((clean.count v : ℚ) / (clean.length : ℚ)) * 100))
      (fun v => ((clean.count v : ℚ) / (clean.length : ℚ)) * 100) (1/200)
      (fun a _ => round2_close _)
  rw [sum_pct_exact clean hpos] at hb
  calc |(clean.dedup.map fun v =>
          round2 (((clean.count v : ℚ) / (clean.length : ℚ)) * 100)).sum - 100|
      ≤ (clean.dedup.length : ℚ) * (1/200) := hb
    _ = (clean.dedup.length : ℚ) / 200 := by ring

lemma tableFilter_cols (t : Table) (c : String) (p : SAVValue → Bool) :
    (tableFilter t c p).cols = t.cols := by
  unfold tableFilter
  cases hi : t.colIdx c <;> simp

lemma filter_filter_comm {α : Type} (l : List α) (p q : α → Bool) :
    (l.filter p).filter q = (l.filter q).filter p := by
  rw [List.filter_filter, List.filter_filter]
  exact List.filter_congr (fun x _ => Bool.and_comm _ _)

lemma tableFilter_comm (t : Table) (c c' : String) (p p' : SAVValue → Bool) :
    tableFilter (tableFilter t c p) c' p' = tableFilter (tableFilter t c' p') c p := by
  cases h1 : t.cols.findIdx? (· == c) <;> cases h2 : t.cols.findIdx? (· == c') <;>
    simp only [tableFilter, Table.colIdx, h1, h2]
  exact congrArg (Table.mk t.cols) (filter_filter_comm t.rows _ _)

lemma tableFilter_rows_sublist (t : Table) (c : String) (p : SAVValue → Bool) :
    (tableFilter t c p).rows.Sublist t.rows := by
  unfold tableFilter
  cases hi : t.colIdx c
  · exact List.Sublist.refl _
  · exact List.filter_sublist _

lemma applyCriterion_eq (c : Criterion) (t : Table) :
    applyCriterion c t = tableFilter t (criterionColumn c) (criterionPred c) := by
  cases c with
  | simple col v =>
    unfold applyCriterion apply_simple_filter tableFilter criterionColumn criterionPred
    cases hi : t.colIdx col <;> simp [hi]
  | edadRange ef =>
    unfold applyCriterion apply_edad_filter tableFilter criterionColumn criterionPred
    cases hi : t.colIdx "Q_75"
    · simp [hi]
    · cases hm : ef.min <;> cases hx : ef.max <;> simp [hi, hm, hx]

lemma simpleStep_keys2 {x : String} (fld : Option ℚ) (c k : String)
    (s : Table × Aplicados) (h : x ∉ s.2.map Prod.fst) (hx : x ≠ k ∨ fld = none) :
    x ∉ (simpleStep fld c k s).2.map Prod.fst := by
  cases fld with
  | none => exact h
  | some v =>
    rcases hx with hx | hn
    · exact simpleStep_keys h hx
    · simp at hn

lemma edadStep_keys2 {x : String} (fld : Option EdadFilter) (s : Table × Aplicados)
    (h : x ∉ s.2.map Prod.fst) (hx : x ≠ "edad" ∨ fld = none) :
    x ∉ (edadStep fld s).2.map Prod.fst := by
  cases fld with
  | none => exact h
  | some ef =>
    rcases hx with hx | hn
    · exact edadStep_keys h hx
    · simp at hn

lemma applyFiltros_notin (df : Table) (f : Filtros) (x : String)
    (h1 : x ≠ "calidad_vida" ∨ f.calidad_vida = none)
    (h2 : x ≠ "municipio" ∨ f.municipio = none)
    (h3 : x ≠ "sexo" ∨ f.sexo = none)
    (h4 : x ≠ "escolaridad" ∨ f.escolaridad = none)
    (h5 : x ≠ "nse" ∨ f.nse = none)
    (h6 : x ≠ "edad" ∨ f.edad = none) :
    x ∉ (applyFiltros df f).2.map Prod.fst := by
  unfold applyFiltros
  exact edadStep_keys2 _ _
    (simpleStep_keys2 _ _ _ _
      (simpleStep_keys2 _ _ _ _
        (simpleStep_keys2 _ _ _ _
          (simpleStep_keys2 _ _ _ _
            (simpleStep_keys2 _ _ _ _ (by simp) h1) h2) h3) h4) h5) h6

lemma applyFiltros_erase (df : Table) (f : Filtros) (k : FilterKey)
    (h : boundColumn k ∉ df.cols) :
    applyFiltros df f = applyFiltros df (eraseKey k f) := by
  cases k with
  | calidad_vida =>
    have hs : "CALIDAD_VIDA" ∉ ((df, ([] : Aplicados)) : Table × Aplicados).1.cols := h
    unfold applyFiltros
    rw [simpleStep_skip f.calidad_vida "CALIDAD_VIDA" "calidad_vida" (df, []) hs]
    rfl
  | municipio =>
    have hs : "Q_94" ∉ (simpleStep f.calidad_vida "CALIDAD_VIDA" "calidad_vida"
        (df, ([] : Aplicados))).1.cols := by
      rw [simpleStep_fst_cols]
      exact h
    unfold applyFiltros
    rw [simpleStep_skip f.municipio "Q_94" "municipio" _ hs]
    rfl
  | sexo =>
    have hs : "SEXO" ∉ (simpleStep f.municipio "Q_94" "municipio"
        (simpleStep f.calidad_vida "CALIDAD_VIDA" "calidad_vida"
          (df, ([] : Aplicados)))).1.cols := by
      rw [simpleStep_fst_cols, simpleStep_fst_cols]
      exact h
    unfold applyFiltros
    rw [simpleStep_skip f.sexo "SEXO" "sexo" _ hs]
    rfl
  | escolaridad =>
    have hs : "ESC" ∉ (simpleStep f.sexo "SEXO" "sexo"
        (simpleStep f.municipio "Q_94" "municipio"
          (simpleStep f.calidad_vida "CALIDAD_VIDA" "calidad_vida"
            (df, ([] : Aplicados))))).1.cols := by
      rw [simpleStep_fst_cols, simpleStep_fst_cols, simpleStep_fst_cols]
      exact h
    unfold applyFiltros
    rw [simpleStep_skip f.escolaridad "ESC" "escolaridad" _ hs]
    rfl
  | nse =>
    have hs : "NSE2024_C" ∉ (simpleStep f.escolaridad "ESC" "escolaridad"
        (simpleStep f.sexo "SEXO" "sexo"
          (simpleStep f.municipio "Q_94" "municipio"
            (simpleStep f.calidad_vida "CALIDAD_VIDA" "calidad_vida"
              (df, ([] : Aplicados)))))).1.cols := by
      rw [simpleStep_fst_cols, simpleStep_fst_cols, simpleStep_fst_cols,
        simpleStep_fst_cols]
      exact h
    unfold applyFiltros
    rw [simpleStep_skip f.nse "NSE2024_C" "nse" _ hs]
    rfl
  | edad =>
    have hs : "Q_75" ∉ (simpleStep f.nse "NSE2024_C" "nse"
        (simpleStep f.escolaridad "ESC" "escolaridad"
          (simpleStep f.sexo "SEXO" "sexo"
            (simpleStep f.municipio "Q_94" "municipio"
              (simpleStep f.calidad_vida "CALIDAD_VIDA" "calidad_vida"
                (df, ([] : Aplicados))))))).1.cols := by
      rw [simpleStep_fst_cols, simpleStep_fst_cols, simpleStep_fst_cols,
        simpleStep_fst_cols, simpleStep_fst_cols]
      exact h
    unfold applyFiltros
    rw [edadStep_skip f.edad _ hs]
    rfl

/-! ### Result inversion for the two query operations -/

lemma get_question_responses_ok {df : Table} {meta : Metadata} {qid tipo : String}
    {r : QuestionResponse} (h : get_question_responses df meta qid tipo = .ok r) :
    qid ∈ df.cols
    ∧ r = { identificador := qid
            pregunta := (meta.column_names_to_labels.lookup qid).getD qid
            tipo_respuesta := tipo
            respuestas := buildRespuestas (dropna (df.getCol qid))
              ((meta.variable_value_labels.lookup qid).getD []) tipo
            total_respuestas := (dropna (df.getCol qid)).length } := by
  unfold get_question_responses at h
  split at h
  · rename_i hq
    injection h with h
    exact ⟨hq, h.symm⟩
  · cases h

lemma get_question_responses_with_filters_ok {df : Table} {meta : Metadata}
    {qid tipo : String} {filtros : Option Filtros} {rf : QuestionResponseF}
    (h : get_question_responses_with_filters df meta qid tipo filtros = .ok rf) :
    qid ∈ df.cols
    ∧ rf = { identificador := qid
             pregunta := (meta.column_names_to_labels.lookup qid).getD qid
             tipo_respuesta := tipo
             respuestas := buildRespuestas
               (dropna ((applyFiltrosOpt df filtros).1.getCol qid))
               ((meta.variable_value_labels.lookup qid).getD []) tipo
             total_respuestas := (dropna ((applyFiltrosOpt df filtros).1.getCol qid)).length
             filtros_aplicados := (applyFiltrosOpt df filtros).2 } := by
  unfold get_question_responses_with_filters at h
  split at h
  · rename_i hq
    injection h with h
    exact ⟨hq, h.symm⟩
  · cases h

lemma countDistributionOK_build (t : Table) (qid : String)
    (qlabels : List (SAVValue × String)) :
    CountDistributionOK t qid
      (buildRespuestas (dropna (t.getCol qid)) qlabels "cantidad")
      (dropna (t.getCol qid)).length := by
  unfold CountDistributionOK
  refine ⟨buildRespuestas_valor_nodup _ _ _,
    fun v => buildRespuestas_mem_valor _ _ _ v, ?_, ?_,
    rfl, buildRespuestas_count_sum _ _, by positivity,
    le_trans (dropna_length_le _) (getCol_length_le t qid)⟩
  · intro v hv
    exact (mem_dropna.1 ((buildRespuestas_mem_valor _ _ _ v).1 hv)).2
  · intro e he
    exact buildRespuestas_metric_count _ _ e he

/-- C1: for every table, column and filter spec, the count-mode distribution
returned by get_question_responses / get_question_responses_with_filters has
one entry per distinct non-missing value of the (filtered) column with the
occurrence count as metric, total_respuestas equals the number of non-missing
values, the count metrics sum to total_respuestas, and total_respuestas is
non-negative and never exceeds the (filtered) row count. -/
theorem count_distribution_correct (df : Table) (meta : Metadata) (qid : String)
    (filtros : Option Filtros) (r : QuestionResponse) (rf : QuestionResponseF)
    (h : get_question_responses df meta qid "cantidad" = .ok r)
    (hf : get_question_responses_with_filters df meta qid "cantidad" filtros = .ok rf) :
    CountDistributionOK df qid r.respuestas r.total_respuestas
    ∧ CountDistributionOK (applyFiltrosOpt df filtros).1 qid
        rf.respuestas rf.total_respuestas := by
  obtain ⟨hq, hr⟩ := get_question_responses_ok h
  obtain ⟨hq2, hrf⟩ := get_question_responses_with_filters_ok hf
  subst hr
  subst hrf
  exact ⟨countDistributionOK_build df qid _, countDistributionOK_build _ qid _⟩

lemma buildRespuestas_nil (qlabels : List (SAVValue × String)) (tipo : String) :
    buildRespuestas [] qlabels tipo = [] := by
  rw [buildRespuestas_eq]
  simp

lemma percentageDistributionOK_build (t : Table) (qid : String)
    (qlabels : List (SAVValue × String)) :
    PercentageDistributionOK t qid
      (buildRespuestas (dropna (t.getCol qid)) qlabels "porcentaje") := by
  unfold PercentageDistributionOK
  by_cases hpos : 0 < (dropna (t.getCol qid)).length
  · exact ⟨fun e he => buildRespuestas_metric_pct _ _ e he hpos,
      fun h0 => absurd h0 (by omega),
      fun _ => buildRespuestas_pct_sum_close _ _ hpos⟩
  · have h0 : (dropna (t.getCol qid)).length = 0 := by omega
    have hnil : dropna (t.getCol qid) = [] := List.length_eq_zero.mp h0
    rw [hnil, buildRespuestas_nil]
    exact ⟨fun e he => absurd he (List.not_mem_nil e), fun _ => rfl,
      fun hp => absurd hp (by simp)⟩

/-- C2 (amended): each percentage metric is round(count/total*100, 2) (with
no entries at all when total = 0), and the metrics sum to 100 within half a
hundredth per entry — not within the fixed tolerance 0.1, which fails once
there are more than 20 entries. -/
theorem percentage_distribution_correct (df : Table) (meta : Metadata)
    (qid : String) (filtros : Option Filtros) (r : QuestionResponse)
    (rf : QuestionResponseF)
    (h : get_question_responses df meta qid "porcentaje" = .ok r)
    (hf : get_question_responses_with_filters df meta qid "porcentaje" filtros = .ok rf) :
    PercentageDistributionOK df qid r.respuestas
    ∧ PercentageDistributionOK (applyFiltrosOpt df filtros).1 qid rf.respuestas := by
  obtain ⟨hq, hr⟩ := get_question_responses_ok h
  obtain ⟨hq2, hrf⟩ := get_question_responses_with_filters_ok hf
  subst hr
  subst hrf
  exact ⟨percentageDistributionOK_build df qid _, percentageDistributionOK_build _ qid _⟩

set_option maxRecDepth 100000 in
unseal Rat.mul Rat.inv Rat.add Rat.sub in
/-- C2 counterexample: with 32 equally frequent values each percentage is
round(3.125, 2) = 3.12, so the metrics sum to 99.84 = 2496/25, which differs
from 100 by 0.16 > 0.1 although total_respuestas = 32 > 0. -/
theorem percentage_sum_tolerance_counterexample :
    ((get_question_responses ctrTable emptyMeta "Q_1" "porcentaje").toOption.map
        (fun r => ((r.respuestas.map Respuesta.metric).sum, r.total_respuestas)))
      = some (2496/25, 32)
    ∧ ¬ |(2496/25 : ℚ) - 100| ≤ 1/10 := by
  refine ⟨by decide, ?_⟩
  have habs : |(2496/25 : ℚ) - 100| = 4/25 := by
    rw [show (2496/25 : ℚ) - 100 = -(4/25) by norm_num, abs_neg,
      abs_of_nonneg (by norm_num)]
  rw [habs]
  norm_num

lemma buildRespuestas_sortedByValueKey (clean : List SAVValue)
    (qlabels : List (SAVValue × String)) (tipo : String) :
    SortedByValueKey (buildRespuestas clean qlabels tipo) := by
  have hs : List.Sorted respRel (buildRespuestas clean qlabels tipo) := by
    rw [buildRespuestas_eq]
    exact List.sorted_insertionSort respRel _
  have hn : ((buildRespuestas clean qlabels tipo).map Respuesta.valor).Pairwise (· ≠ ·) :=
    buildRespuestas_valor_nodup clean qlabels tipo
  have hn2 := List.pairwise_map.mp hn
  exact hs.and hn2

/-- C3: for every table, existing column, mode and filter spec, the entries
of both query operations are sorted by (is-string, value) — numerics before
strings, each group strictly ascending — and repeated calls with identical
inputs return the same entries. -/
theorem distribution_ordering_deterministic (df : Table) (meta : Metadata)
    (qid tipo : String) (filtros : Option Filtros) (r : QuestionResponse)
    (rf : QuestionResponseF)
    (h : get_question_responses df meta qid tipo = .ok r)
    (hf : get_question_responses_with_filters df meta qid tipo filtros = .ok rf) :
    SortedByValueKey r.respuestas
    ∧ SortedByValueKey rf.respuestas
    ∧ (∀ r2, get_question_responses df meta qid tipo = .ok r2 → r2 = r)
    ∧ (∀ rf2, get_question_responses_with_filters df meta qid tipo filtros = .ok rf2
        → rf2 = rf) := by
  obtain ⟨_, hr⟩ := get_question_responses_ok h
  obtain ⟨_, hrf⟩ := get_question_responses_with_filters_ok hf
  refine ⟨?_, ?_, ?_, ?_⟩
  · rw [hr]
    exact buildRespuestas_sortedByValueKey _ _ _
  · rw [hrf]
    exact buildRespuestas_sortedByValueKey _ _ _
  · intro r2 h2
    rw [h] at h2
    injection h2 with h2
    exact h2.symm
  · intro rf2 h2
    rw [hf] at h2
    injection h2 with h2
    exact h2.symm

/-- C4: both query operations fail with QuestionNotFound exactly when the
identifier is not a column of the original table; when the column exists
they succeed for every filter spec, and filtering never removes columns. -/
theorem question_not_found_iff (df : Table) (meta : Metadata) (qid tipo : String)
    (filtros : Option Filtros) :
    ((∃ m, get_question_responses df meta qid tipo = .error (.questionNotFound m))
      ↔ qid ∉ df.cols)
    ∧ ((∃ m, get_question_responses_with_filters df meta qid tipo filtros
          = .error (.questionNotFound m)) ↔ qid ∉ df.cols)
    ∧ (qid ∈ df.cols →
        (∃ r, get_question_responses df meta qid tipo = .ok r)
        ∧ (∃ rf, get_question_responses_with_filters df meta qid tipo filtros = .ok rf))
    ∧ (applyFiltrosOpt df filtros).1.cols = df.cols := by
  by_cases hq : qid ∈ df.cols
  · have e1 : ∃ r, get_question_responses df meta qid tipo = .ok r := by
      unfold get_question_responses
      rw [if_pos hq]
      exact ⟨_, rfl⟩
    have e2 : ∃ rf, get_question_responses_with_filters df meta qid tipo filtros
        = .ok rf := by
      unfold get_question_responses_with_filters
      rw [if_pos hq]
      exact ⟨_, rfl⟩
    obtain ⟨r, hr⟩ := e1
    obtain ⟨rf, hrf⟩ := e2
    refine ⟨?_, ?_, fun _ => ⟨⟨r, hr⟩, ⟨rf, hrf⟩⟩, applyFiltrosOpt_fst_cols df filtros⟩
    · simp [hr, hq]
    · simp [hrf, hq]
  · have e1 : get_question_responses df meta qid tipo
        = .error (.questionNotFound ("Pregunta " ++ qid ++ " no encontrada")) := by
      unfold get_question_responses
      rw [if_neg hq]
    have e2 : get_question_responses_with_filters df meta qid tipo filtros
        = .error (.questionNotFound ("Pregunta " ++ qid ++ " no encontrada")) := by
      unfold get_question_responses_with_filters
      rw [if_neg hq]
    refine ⟨?_, ?_, fun hmem => absurd hmem hq, applyFiltrosOpt_fst_cols df filtros⟩
    · simp [e1, hq]
    · simp [e2, hq]

/-- C5: a recognized filter key whose bound column is absent is a silent
no-op: the filter application equals the one with the key removed, and the
key never appears in filtros_aplicados. -/
theorem missing_column_filter_noop (df : Table) (meta : Metadata)
    (qid tipo : String) (f : Filtros) (k : FilterKey)
    (h : boundColumn k ∉ df.cols) :
    applyFiltros df f = applyFiltros df (eraseKey k f)
    ∧ keyName k ∉ (applyFiltros df f).2.map Prod.fst
    ∧ get_question_responses_with_filters df meta qid tipo (some f)
        = get_question_responses_with_filters df meta qid tipo (some (eraseKey k f))
    ∧ ∀ rf, get_question_responses_with_filters df meta qid tipo (some f) = .ok rf →
        keyName k ∉ rf.filtros_aplicados.map Prod.fst := by
  have heq := applyFiltros_erase df f k h
  have hnot : keyName k ∉ (applyFiltros df f).2.map Prod.fst := by
    rw [heq]
    cases k with
    | calidad_vida =>
      exact applyFiltros_notin df _ _ (Or.inr rfl) (Or.inl (by decide))
        (Or.inl (by decide)) (Or.inl (by decide)) (Or.inl (by decide))
        (Or.inl (by decide))
    | municipio =>
      exact applyFiltros_notin df _ _ (Or.inl (by decide)) (Or.inr rfl)
        (Or.inl (by decide)) (Or.inl (by decide)) (Or.inl (by decide))
        (Or.inl (by decide))
    | sexo =>
      exact applyFiltros_notin df _ _ (Or.inl (by decide)) (Or.inl (by decide))
        (Or.inr rfl) (Or.inl (by decide)) (Or.inl (by decide))
        (Or.inl (by decide))
    | escolaridad =>
      exact applyFiltros_notin df _ _ (Or.inl (by decide)) (Or.inl (by decide))
        (Or.inl (by decide)) (Or.inr rfl) (Or.inl (by decide))
        (Or.inl (by decide))
    | nse =>
      exact applyFiltros_notin df _ _ (Or.inl (by decide)) (Or.inl (by decide))
        (Or.inl (by decide)) (Or.inl (by decide)) (Or.inr rfl)
        (Or.inl (by decide))
    | edad =>
      exact applyFiltros_notin df _ _ (Or.inl (by decide)) (Or.inl (by decide))
        (Or.inl (by decide)) (Or.inl (by decide)) (Or.inl (by decide))
        (Or.inr rfl)
  have hfun : get_question_responses_with_filters df meta qid tipo (some f)
      = get_question_responses_with_filters df meta qid tipo (some (eraseKey k f)) := by
    unfold get_question_responses_with_filters
    simp only [applyFiltrosOpt, heq]
  refine ⟨heq, hnot, hfun, ?_⟩
  intro rf hrf
  obtain ⟨_, hrfeq⟩ := get_question_responses_with_filters_ok hrf
  rw [hrfeq]
  exact hnot

/-- C6: each filter criterion is an order-independent row restriction, and
an empty filter spec leaves the table unchanged. -/
theorem filter_application_commutes (A B : Criterion) (t : Table) :
    applyCriterion A (applyCriterion B t) = applyCriterion B (applyCriterion A t)
    ∧ (applyCriterion A t).rows.Sublist t.rows
    ∧ applyFiltros t {} = (t, [])
    ∧ applyFiltrosOpt t none = (t, []) := by
  refine ⟨?_, ?_, rfl, rfl⟩
  · simp only [applyCriterion_eq]
    exact tableFilter_comm t (criterionColumn B) (criterionColumn A)
      (criterionPred B) (criterionPred A)
  · rw [applyCriterion_eq]
    exact tableFilter_rows_sublist t (criterionColumn A) (criterionPred A)

/-- C7: with an absent or empty filter spec the filtered query path returns
exactly the unfiltered result plus an empty filtros_aplicados map. -/
theorem no_filters_equivalent (df : Table) (meta : Metadata) (qid tipo : String) :
    ((get_question_responses_with_filters df meta qid tipo none).map forgetFiltros
        = get_question_responses df meta qid tipo)
    ∧ ((get_question_responses_with_filters df meta qid tipo (some {})).map forgetFiltros
        = get_question_responses df meta qid tipo)
    ∧ (∀ rf, get_question_responses_with_filters df meta qid tipo none = .ok rf →
        rf.filtros_aplicados = [])
    ∧ (∀ rf, get_question_responses_with_filters df meta qid tipo (some {}) = .ok rf →
        rf.filtros_aplicados = []) := by
  refine ⟨?_, ?_, ?_, ?_⟩
  · unfold get_question_responses_with_filters get_question_responses
    by_cases hq : qid ∈ df.cols
    · rw [if_pos hq, if_pos hq]
      rfl
    · rw [if_neg hq, if_neg hq]
      rfl
  · unfold get_question_responses_with_filters get_question_responses
    by_cases hq : qid ∈ df.cols
    · rw [if_pos hq, if_pos hq]
      rfl
    · rw [if_neg hq, if_neg hq]
      rfl
  · intro rf hrf
    obtain ⟨_, hrfeq⟩ := get_question_responses_with_filters_ok hrf
    rw [hrfeq]
    rfl
  · intro rf hrf
    obtain ⟨_, hrfeq⟩ := get_question_responses_with_filters_ok hrf
    rw [hrfeq]
    rfl

lemma load_data_trace_cached (art : Artifact) (s : ReaderState)
    (d : Table × Metadata) (hs : s.cached_data = some d) (n : ℕ) :
    load_data_trace art s n = (List.replicate n (.ok d), s, 0) := by
  induction n with
  | zero => rfl
  | succ n ih =>
    have hl : load_data art s = (.ok d, s, 0) := by
      unfold load_data
      rw [hs]
    unfold load_data_trace
    rw [hl]
    simp [ih, List.replicate_succ]

/-- C8: once a load has succeeded (the cache holds a pair), every later
load_data call returns the identical cached pair with no artifact read and
no state change; and over any N calls against a parsable artifact the
artifact is read at most once. -/
theorem load_idempotent_cached (art : Artifact) (s : ReaderState)
    (d : Table × Metadata) (n : ℕ) (h : s.cached_data = some d) :
    load_data_trace art s n = (List.replicate n (.ok d), s, 0)
    ∧ (∀ (df : Table) (meta : Metadata) (s2 : ReaderState) (m : ℕ),
        (load_data_trace (.good df meta) s2 m).2.2 ≤ 1) := by
  refine ⟨load_data_trace_cached art s d h n, ?_⟩
  intro df meta s2 m
  cases m with
  | zero => simp [load_data_trace]
  | succ m =>
    cases hs2 : s2.cached_data with
    | some d2 =>
      rw [load_data_trace_cached _ _ _ hs2]
      simp
    | none =>
      have hl : load_data (.good df meta) s2
          = (.ok (df, meta), { s2 with cached_data := some (df, meta) }, 1) := by
        unfold load_data
        rw [hs2]
      unfold load_data_trace
      rw [hl]
      simp only [load_data_trace_cached (Artifact.good df meta)
        ⟨s2.file_path, some (df, meta)⟩ (df, meta) rfl m]
      simp

/-- C9 counterexample: at a fresh reader for "data.sav", the missing-artifact
failure and the unparsable-artifact failure both raise the single
SAVReaderError kind, so the two failures cannot be told apart by the
error's type. -/
theorem load_failure_same_kind_counterexample :
    (∃ m1, (load_data .absent ⟨"data.sav", none⟩).1 = .error (.savReaderError m1))
    ∧ (∃ m2, (load_data (.corrupt "bad header") ⟨"data.sav", none⟩).1
        = .error (.savReaderError m2))
    ∧ errKindOf (load_data .absent ⟨"data.sav", none⟩).1
        = errKindOf (load_data (.corrupt "bad header") ⟨"data.sav", none⟩).1 :=
  ⟨⟨_, rfl⟩, ⟨_, rfl⟩, rfl⟩

/-- C9 (amended): both load failure modes raise the same SAVReaderError
kind; the missing artifact yields the message "Data file not found: path"
and the unparsable artifact yields "Error reading data file: cause"
carrying the underlying cause, so callers distinguish the failures only by
message content, not by error type. -/
theorem load_failure_modes (path cause : String) :
    (load_data .absent ⟨path, none⟩).1
      = .error (.savReaderError ("Data file not found: " ++ path))
    ∧ (load_data (.corrupt cause) ⟨path, none⟩).1
      = .error (.savReaderError ("Error reading data file: " ++ cause))
    ∧ (SAVErr.savReaderError ("Data file not found: " ++ path)).kind
      = (SAVErr.savReaderError ("Error reading data file: " ++ cause)).kind :=
  ⟨rfl, rfl, rfl⟩

/-- C10: an edad entry with neither bound restricts no rows, yet the key
"edad" with its empty range is still recorded in filtros_aplicados. -/
theorem empty_edad_range_applied (df : Table) (meta : Metadata)
    (qid tipo : String) (h75 : "Q_75" ∈ df.cols) (hq : qid ∈ df.cols) :
    ∃ rf r, get_question_responses_with_filters df meta qid tipo
        (some { edad := some ⟨none, none⟩ }) = .ok rf
      ∧ get_question_responses df meta qid tipo = .ok r
      ∧ rf.respuestas = r.respuestas
      ∧ rf.total_respuestas = r.total_respuestas
      ∧ rf.filtros_aplicados = [("edad", .rango none none)] := by
  obtain ⟨i, hi⟩ := colIdx_isSome_of_mem h75
  have hfa : applyFiltros df { edad := some ⟨none, none⟩ }
      = (df, [("edad", FilterValue.rango none none)]) := by
    show apply_edad_filter df ⟨none, none⟩ [] = _
    unfold apply_edad_filter
    rw [hi]
    rfl
  have hfa2 : applyFiltrosOpt df (some { edad := some ⟨none, none⟩ })
      = (df, [("edad", FilterValue.rango none none)]) := hfa
  refine ⟨{ identificador := qid
            pregunta := (meta.column_names_to_labels.lookup qid).getD qid
            tipo_respuesta := tipo
            respuestas := buildRespuestas (dropna (df.getCol qid))
              ((meta.variable_value_labels.lookup qid).getD []) tipo
            total_respuestas := (dropna (df.getCol qid)).length
            filtros_aplicados := [("edad", FilterValue.rango none none)] },
         { identificador := qid
           pregunta := (meta.column_names_to_labels.lookup qid).getD qid
           tipo_respuesta := tipo
           respuestas := buildRespuestas (dropna (df.getCol qid))
             ((meta.variable_value_labels.lookup qid).getD []) tipo
           total_respuestas := (dropna (df.getCol qid)).length },
         ?_, ?_, rfl, rfl, rfl⟩
  · unfold get_question_responses_with_filters
    rw [if_pos hq]
    simp [hfa2]
  · unfold get_question_responses
    rw [if_pos hq]

/-- Witness for C1 at the SEXO example. -/
theorem count_distribution_correct_witness :
    CountDistributionOK exTable "SEXO" exR.respuestas exR.total_respuestas
    ∧ CountDistributionOK (applyFiltrosOpt exTable none).1 "SEXO"
        exRF.respuestas exRF.total_respuestas :=
  count_distribution_correct exTable exMeta "SEXO" none exR exRF
    (by decide) (by decide)

unseal Rat.mul Rat.inv Rat.add Rat.sub in
/-- Witness for the amended C2 at the SEXO example. -/
theorem percentage_distribution_correct_witness :
    PercentageDistributionOK exTable "SEXO" exRP.respuestas
    ∧ PercentageDistributionOK (applyFiltrosOpt exTable none).1 "SEXO"
        exRPF.respuestas :=
  percentage_distribution_correct exTable exMeta "SEXO" none exRP exRPF
    (by decide) (by decide)

/-- Witness for C3 at the SEXO example. -/
theorem distribution_ordering_deterministic_witness :
    SortedByValueKey exR.respuestas
    ∧ SortedByValueKey exRF.respuestas
    ∧ (∀ r2, get_question_responses exTable exMeta "SEXO" "cantidad" = .ok r2 →
        r2 = exR)
    ∧ (∀ rf2, get_question_responses_with_filters exTable exMeta "SEXO" "cantidad" none
        = .ok rf2 → rf2 = exRF) :=
  distribution_ordering_deterministic exTable exMeta "SEXO" "cantidad" none exR exRF
    (by decide) (by decide)

/-- Witness for C4 at the SEXO example with an unknown identifier. -/
theorem question_not_found_iff_witness :
    ((∃ m, get_question_responses exTable exMeta "NOT_A_COLUMN" "cantidad"
        = .error (.questionNotFound m)) ↔ "NOT_A_COLUMN" ∉ exTable.cols)
    ∧ ((∃ m, get_question_responses_with_filters exTable exMeta "NOT_A_COLUMN"
          "cantidad" none = .error (.questionNotFound m))
        ↔ "NOT_A_COLUMN" ∉ exTable.cols)
    ∧ ("NOT_A_COLUMN" ∈ exTable.cols →
        (∃ r, get_question_responses exTable exMeta "NOT_A_COLUMN" "cantidad" = .ok r)
        ∧ (∃ rf, get_question_responses_with_filters exTable exMeta "NOT_A_COLUMN"
            "cantidad" none = .ok rf))
    ∧ (applyFiltrosOpt exTable none).1.cols = exTable.cols :=
  question_not_found_iff exTable exMeta "NOT_A_COLUMN" "cantidad" none

/-- Witness for C5: the SEXO example table has no CALIDAD_VIDA column. -/
theorem missing_column_filter_noop_witness :
    applyFiltros exTable { calidad_vida := some 1, sexo := some 1 }
      = applyFiltros exTable
          (eraseKey .calidad_vida { calidad_vida := some 1, sexo := some 1 })
    ∧ keyName .calidad_vida
        ∉ (applyFiltros exTable { calidad_vida := some 1, sexo := some 1 }).2.map
            Prod.fst
    ∧ get_question_responses_with_filters exTable exMeta "SEXO" "cantidad"
        (some { calidad_vida := some 1, sexo := some 1 })
      = get_question_responses_with_filters exTable exMeta "SEXO" "cantidad"
          (some (eraseKey .calidad_vida { calidad_vida := some 1, sexo := some 1 }))
    ∧ ∀ rf, get_question_responses_with_filters exTable exMeta "SEXO" "cantidad"
        (some { calidad_vida := some 1, sexo := some 1 }) = .ok rf →
        keyName .calidad_vida ∉ rf.filtros_aplicados.map Prod.fst :=
  missing_column_filter_noop exTable exMeta "SEXO" "cantidad"
    { calidad_vida := some 1, sexo := some 1 } FilterKey.calidad_vida (by decide)

/-- Witness for C7 at the SEXO example. -/
theorem no_filters_equivalent_witness :
    ((get_question_responses_with_filters exTable exMeta "SEXO" "cantidad" none).map
        forgetFiltros = get_question_responses exTable exMeta "SEXO" "cantidad")
    ∧ ((get_question_responses_with_filters exTable exMeta "SEXO" "cantidad"
          (some {})).map forgetFiltros
        = get_question_responses exTable exMeta "SEXO" "cantidad")
    ∧ (∀ rf, get_question_responses_with_filters exTable exMeta "SEXO" "cantidad" none
        = .ok rf → rf.filtros_aplicados = [])
    ∧ (∀ rf, get_question_responses_with_filters exTable exMeta "SEXO" "cantidad"
        (some {}) = .ok rf → rf.filtros_aplicados = []) :=
  no_filters_equivalent exTable exMeta "SEXO" "cantidad"

/-- Witness for C8: a reader whose cache already holds the SEXO data. -/
theorem load_idempotent_cached_witness :
    load_data_trace Artifact.absent ⟨"data.sav", some (exTable, exMeta)⟩ 3
      = (List.replicate 3 (.ok (exTable, exMeta)),
         ⟨"data.sav", some (exTable, exMeta)⟩, 0)
    ∧ (∀ (df : Table) (meta : Metadata) (s2 : ReaderState) (m : ℕ),
        (load_data_trace (.good df meta) s2 m).2.2 ≤ 1) :=
  load_idempotent_cached Artifact.absent ⟨"data.sav", some (exTable, exMeta)⟩
    (exTable, exMeta) 3 rfl

/-- Witness for C10 at the two-column example table. -/
theorem empty_edad_range_applied_witness :
    ∃ rf r, get_question_responses_with_filters exTable2 exMeta "SEXO" "cantidad"
        (some { edad := some ⟨none, none⟩ }) = .ok rf
      ∧ get_question_responses exTable2 exMeta "SEXO" "cantidad" = .ok r
      ∧ rf.respuestas = r.respuestas
      ∧ rf.total_respuestas = r.total_respuestas
      ∧ rf.filtros_aplicados = [("edad", .rango none none)] :=
  empty_edad_range_applied exTable2 exMeta "SEXO" "cantidad" (by decide) (by decide)
